import Mathlib

/-!
Verification of the currobot job-application pipeline specification against a
shallow embedding of its Python source (backend/).

Texts are modelled as `List Char` (Python `str`); machine floats as `ℚ`
(all amounts in scope are small decimals, exactly representable); database
tables as Lean lists; timestamps as `Nat` seconds.  Regex-based scanners from
the source are translated into explicit left-to-right scanning functions with
the same leftmost/greedy semantics as Python's `re` on the inputs in scope
(ASCII case folding; the source's inputs are lowercased before matching).
-/

-- ===========================================================================
-- String infrastructure
-- ===========================================================================

/-- Python `str` modelled as a list of characters. -/
abbrev Str := List Char

/-- Convert a Lean string literal to the `Str` model. -/
def str (s : String) : Str := s.toList

/-- Does `cand` start with `pat`? (Python `startswith`, used for substring scan.) -/
def leadsWith : Str → Str → Bool
  | [], _ => true
  | _ :: _, [] => false
  | p :: ps, c :: cs => p == c && leadsWith ps cs

/-- Python `pat in text` (substring containment). -/
def hasSub (pat : Str) : Str → Bool
  | [] => leadsWith pat []
  | text@(_ :: rest) => leadsWith pat text || hasSub pat rest

/-- Case-insensitive variant of `leadsWith`: the text side is lowercased. -/
def leadsWithCI : Str → Str → Bool
  | [], _ => true
  | _ :: _, [] => false
  | p :: ps, c :: cs => p == c.toLower && leadsWithCI ps cs

/-- Case-insensitive substring search (pattern given lowercase). -/
def hasSubCI (pat : Str) : Str → Bool
  | [] => leadsWithCI pat []
  | text@(_ :: rest) => leadsWithCI pat text || hasSubCI pat rest

/-- Python `str.lower()` (ASCII folding; inputs in scope are ASCII/eurosign). -/
def lowerL (s : Str) : Str := s.map Char.toLower

/-- Python `dict.get(k) or ""`: `None`/missing/empty all collapse to `""`. -/
def orEmpty : Option Str → Str
  | none => []
  | some s => s

/-- Python `\s` on the inputs in scope (ASCII whitespace). -/
def isSpaceCh (c : Char) : Bool :=
  c == ' ' || c == '\t' || c == '\n' || c == '\r'

/-- Python `\w` on the inputs in scope (ASCII letters, digits, underscore). -/
def isWordCh (c : Char) : Bool :=
  c.isAlphanum || c == '_'

/-- Character class `[\d.,]` from the salary amount regex. -/
def isAmtCh (c : Char) : Bool :=
  c.isDigit || c == '.' || c == ','

/-- Numeric value of a digit run. -/
def natOfDigits (s : Str) : Nat :=
  s.foldl (fun acc c => acc * 10 + (c.toNat - '0'.toNat)) 0

/-- Assoc-list lookup (Python `dict.get`). -/
def assocGet (m : List (Str × Str)) (k : Str) : Option Str :=
  (m.find? (fun kv => kv.1 == k)).map (·.2)

/-- Assoc-list store (Python `d[k] = v`). -/
def assocSet (m : List (Str × Str)) (k v : Str) : List (Str × Str) :=
  if (m.find? (fun kv => kv.1 == k)).isSome then
    m.map (fun kv => if kv.1 == k then (k, v) else kv)
  else m ++ [(k, v)]

-- ===========================================================================
-- visa_filter.py : number parsing  (_parse_number)
-- ===========================================================================

/-- `re.search(r"\d\.\d{3}", s)`: a digit, a dot, then three digits occur. -/
def hasEuroThousands : Str → Bool
  | [] => false
  | a :: rest =>
    (match rest with
     | '.' :: b :: c :: d :: _ =>
       a.isDigit && b.isDigit && c.isDigit && d.isDigit
     | _ => false) || hasEuroThousands rest

/-- Split a char list at every `'.'` (for modelling Python `float(s)`). -/
def splitDots : Str → List Str
  | [] => [[]]
  | '.' :: rest => [] :: splitDots rest
  | c :: rest =>
    match splitDots rest with
    | [] => [[c]]
    | p :: ps => (c :: p) :: ps

/-- Python `float(s)` for strings of digits and dots; `None` on `ValueError`. -/
def floatOf (s : Str) : Option ℚ :=
  match splitDots s with
  | [ip] =>
    if ip ≠ [] && ip.all Char.isDigit then some ((natOfDigits ip : ℚ)) else none
  | [ip, fp] =>
    if (ip ≠ [] || fp ≠ []) && ip.all Char.isDigit && fp.all Char.isDigit then
      some ((natOfDigits ip : ℚ) + (natOfDigits fp : ℚ) / ((10 : ℚ) ^ fp.length))
    else none
  | _ => none

/-- `_parse_number`: '1.200,50' / '1,200.50' / '1200' conventions → `ℚ`. -/
def parse_number (raw : Str) : Option ℚ :=
  if raw = [] then none
  else
    let s := raw.filter (fun c => c ≠ ' ')
    if hasEuroThousands s && !(s.contains ',') then
      floatOf (s.filter (fun c => c ≠ '.'))
    else if s.contains ',' && s.contains '.' then
      if s.indexOf ',' < s.indexOf '.' then
        floatOf (s.filter (fun c => c ≠ ','))
      else
        floatOf ((s.filter (fun c => c ≠ '.')).map (fun c => if c = ',' then '.' else c))
    else if s.contains ',' then
      floatOf (s.map (fun c => if c = ',' then '.' else c))
    else floatOf s

-- ===========================================================================
-- visa_filter.py : salary regex  (_parse_salary_amounts)
--
-- Local pattern, with re.IGNORECASE and finditer semantics:
--   (\d[\d.,]*)(?:\s*[-–]\s*(\d[\d.,]*))?\s*(?:€|eur(?:os?)?)?\s*/?\s*
--   (mes(?:es)?|month|año|ano|anual(?:es)?|year|annual)?
-- Everything after group 1 is optional, so the greedy left-to-right reading
-- below is exactly Python's backtracking semantics.
-- ===========================================================================

/-- Optional range part `(?:\s*[-–]\s*(\d[\d.,]*))?`: returns the captured
second amount and the rest, or leaves the input untouched. -/
def matchRange (l : Str) : Option Str × Str :=
  let s := l.dropWhile isSpaceCh
  match s with
  | d :: t =>
    if d == '-' || d == '–' then
      let s2 := t.dropWhile isSpaceCh
      match s2 with
      | x :: t2 =>
        if x.isDigit then
          (some (x :: t2.takeWhile isAmtCh), t2.dropWhile isAmtCh)
        else (none, l)
      | [] => (none, l)
    else (none, l)
  | [] => (none, l)

/-- Optional currency `(?:€|eur(?:os?)?)?` (case-insensitive, greedy). -/
def matchCurrency (l : Str) : Str :=
  match l with
  | '€' :: t => t
  | _ =>
    if leadsWithCI (str "euros") l then l.drop 5
    else if leadsWithCI (str "euro") l then l.drop 4
    else if leadsWithCI (str "eur") l then l.drop 3
    else l

/-- Optional period keyword, alternatives tried in the pattern's order, each
inner `(?:es)?` greedy.  Returns the (lowercased) captured keyword. -/
def matchPeriod (l : Str) : Str × Str :=
  if leadsWithCI (str "meses") l then (str "meses", l.drop 5)
  else if leadsWithCI (str "mes") l then (str "mes", l.drop 3)
  else if leadsWithCI (str "month") l then (str "month", l.drop 5)
  else if leadsWithCI (str "año") l then (str "año", l.drop 3)
  else if leadsWithCI (str "ano") l then (str "ano", l.drop 3)
  else if leadsWithCI (str "anuales") l then (str "anuales", l.drop 7)
  else if leadsWithCI (str "anual") l then (str "anual", l.drop 5)
  else if leadsWithCI (str "year") l then (str "year", l.drop 4)
  else if leadsWithCI (str "annual") l then (str "annual", l.drop 6)
  else ([], l)

/-- One salary-pattern match attempt at the head of `l`:
`(g1, g2?, period, rest)`.  Fails unless `l` starts with a digit. -/
def matchSalaryAt (l : Str) : Option (Str × Option Str × Str × Str) :=
  match l with
  | [] => none
  | c :: tail =>
    if c.isDigit then
      let g1 := c :: tail.takeWhile isAmtCh
      let r1 := tail.dropWhile isAmtCh
      let (g2, r2) := matchRange r1
      let r3 := r2.dropWhile isSpaceCh
      let r4 := matchCurrency r3
      let r5a := r4.dropWhile isSpaceCh
      let r5b := match r5a with
                 | '/' :: t => t
                 | _ => r5a
      let r5 := r5b.dropWhile isSpaceCh
      let (g3, rem) := matchPeriod r5
      some (g1, g2, g3, rem)
    else none

/-- One matched occurrence: start position, matched length, and the three
captured groups. -/
structure SalMatch where
  pos : Nat
  len : Nat
  g1 : Str
  g2 : Option Str
  g3 : Str
deriving Repr, DecidableEq

/-- `finditer` scan: try a match at every position, resume after each match.
`fuel` bounds the recursion (each step consumes at least one character). -/
def salScan (fuel : Nat) (l : Str) (pos : Nat) : List SalMatch :=
  match fuel, l with
  | 0, _ => []
  | _, [] => []
  | fuel + 1, c :: tail =>
    match matchSalaryAt (c :: tail) with
    | some (g1, g2, g3, rem) =>
      let len := (tail.length + 1) - rem.length
      ⟨pos, len, g1, g2, g3⟩ :: salScan fuel rem (pos + len)
    | none => salScan fuel tail (pos + 1)

def salFindIter (text : Str) : List SalMatch :=
  salScan text.length text 0

/-- Period tag of a parsed salary candidate. -/
inductive Period where
  | monthly
  | annual
deriving Repr, DecidableEq

/-- Per-match body of the `_parse_salary_amounts` loop: the ±5-character
currency window test, amount parsing, and period classification with the
sanity clamps. -/
def candidatesOfMatch (text : Str) (m : SalMatch) : List (ℚ × Period) :=
  let surrounding := (text.drop (m.pos - 5)).take ((m.pos + m.len + 5) - (m.pos - 5))
  let hasCurrency := hasSubCI (str "€") surrounding || hasSubCI (str "eur") surrounding
  if m.g3 = [] && !hasCurrency then []
  else
    let amounts := ([parse_number m.g1] ++
      (match m.g2 with
       | some g => [parse_number g]
       | none => [])).filterMap id
    let amounts := amounts.filter (fun a => 0 < a)
    if amounts = [] then []
    else
      amounts.flatMap (fun amount =>
        if m.g3 ∈ [str "año", str "ano", str "anual", str "anuales", str "year", str "annual"] then
          if 5000 < amount && amount < 500000 then [(amount, Period.annual)] else []
        else if m.g3 ∈ [str "mes", str "meses", str "month"] then
          if 300 < amount && amount < 30000 then [(amount, Period.monthly)] else []
        else if amount > 2000 then
          if 5000 < amount && amount < 500000 then [(amount, Period.annual)] else []
        else
          if 300 < amount && amount < 30000 then [(amount, Period.monthly)] else [])

/-- `_parse_salary_amounts`. -/
def parse_salary_amounts (text : Str) : List (ℚ × Period) :=
  (salFindIter text).flatMap (candidatesOfMatch text)

-- ===========================================================================
-- visa_filter.py : hours regex  (_check_hours)
--
--   \b(\d{1,2})\s*(?:h(?:oras?)?|hrs?)(?:/semana|semanales|\s+semana|
--     \s+semanales|/week)?\b    with re.IGNORECASE, finditer.
-- The trailing \b can force backtracking through the optional suffix and the
-- unit alternation, so candidate rests are tried in backtracking order.
-- ===========================================================================

/-- Word boundary in front of the rest of the text (end or non-word char). -/
def atBoundary : Str → Bool
  | [] => true
  | c :: _ => !isWordCh c

/-- Rests after the unit alternation `(?:h(?:oras?)?|hrs?)`, in Python's
backtracking order. -/
def hoursUnitRests (l : Str) : List Str :=
  (if leadsWithCI (str "horas") l then [l.drop 5] else []) ++
  (if leadsWithCI (str "hora") l then [l.drop 4] else []) ++
  (if leadsWithCI (str "h") l then [l.drop 1] else []) ++
  (if leadsWithCI (str "hrs") l then [l.drop 3] else []) ++
  (if leadsWithCI (str "hr") l then [l.drop 2] else [])

/-- Rests after the optional suffix
`(?:/semana|semanales|\s+semana|\s+semanales|/week)?`, in backtracking order
(the `\s+` is greedy and must be followed by the literal, so only the maximal
space run can match). -/
def hoursSuffixRests (l : Str) : List Str :=
  let sp := l.takeWhile isSpaceCh
  let r := l.dropWhile isSpaceCh
  (if leadsWithCI (str "/semana") l then [l.drop 7] else []) ++
  (if leadsWithCI (str "semanales") l then [l.drop 9] else []) ++
  (if sp ≠ [] && leadsWithCI (str "semana") r then [r.drop 6] else []) ++
  (if sp ≠ [] && leadsWithCI (str "semanales") r then [r.drop 9] else []) ++
  (if leadsWithCI (str "/week") l then [l.drop 5] else []) ++
  [l]

/-- Continue an hours match after the captured digits `ds`. -/
def matchHoursDigits (ds : Str) (rest : Str) : Option (Nat × Str) :=
  let afterSp := rest.dropWhile isSpaceCh
  let rems := (hoursUnitRests afterSp).flatMap
    (fun r2 => (hoursSuffixRests r2).filter atBoundary)
  match rems with
  | rem :: _ => some (natOfDigits ds, rem)
  | [] => none

/-- Hours match attempt at the head of `l` (`\d{1,2}` greedy, then the rest;
two digits are given up for one if the continuation fails). -/
def matchHoursAt (l : Str) : Option (Nat × Str) :=
  match l with
  | [] => none
  | [c1] => if c1.isDigit then matchHoursDigits [c1] [] else none
  | c1 :: c2 :: rest =>
    if c1.isDigit then
      if c2.isDigit then
        match matchHoursDigits [c1, c2] rest with
        | some r => some r
        | none => matchHoursDigits [c1] (c2 :: rest)
      else matchHoursDigits [c1] (c2 :: rest)
    else none

/-- The character of `l` immediately preceding its suffix `rem`. -/
def lastCharBefore (l rem : Str) : Option Char :=
  l.get? (l.length - rem.length - 1)

/-- `finditer` over the hours pattern, returning the first captured hour
count strictly below 35 (the body of `_check_hours`). -/
def hoursScan (fuel : Nat) (prev : Option Char) (l : Str) : Option Nat :=
  match fuel, l with
  | 0, _ => none
  | _, [] => none
  | fuel + 1, c :: tail =>
    if (match prev with
        | none => true
        | some p => !isWordCh p) && c.isDigit then
      match matchHoursAt (c :: tail) with
      | some (h, rem) =>
        if h < 35 then some h
        else hoursScan fuel (lastCharBefore (c :: tail) rem) rem
      | none => hoursScan fuel (some c) tail
    else hoursScan fuel (some c) tail

/-- `_check_hours`. -/
def check_hours (text : Str) : Option Str :=
  match hoursScan text.length none text with
  | some h => some (str "part-time hours detected: " ++ str (toString h) ++ str "h/week")
  | none => none

-- ===========================================================================
-- visa_filter.py : keyword sets, thresholds, _check_salary, is_eligible
-- ===========================================================================

/-- `_TEMPORAL_KEYWORDS` (a Python set; the duplicate "sustitución" literal
collapses).  Modelled in source order — Python's set iteration order is
unspecified, but the eligibility boolean is order-independent. -/
def TEMPORAL_KEYWORDS : List Str :=
  [str "temporal", str "por obra", str "obra y servicio", str "obra o servicio",
   str "eventual", str "interinidad", str "interino", str "interina",
   str "sustitución", str "sustitucio", str "fijo discontinuo",
   str "fijo-discontinuo", str "fixed-term", str "fixed term",
   str "temporary contract", str "contrato de duración determinada"]

/-- `_PARTTIME_KEYWORDS`. -/
def PARTTIME_KEYWORDS : List Str :=
  [str "media jornada", str "medio jornada", str "tiempo parcial",
   str "part time", str "part-time", str "jornada parcial", str "jornada reducida"]

/-- `_find_keyword`: first keyword contained in the text. -/
def find_keyword (text : Str) (keywords : List Str) : Option Str :=
  keywords.find? (fun kw => hasSub kw text)

/-- Python `str.strip()` (whitespace trim). -/
def stripSpaces (s : Str) : Str :=
  ((s.dropWhile isSpaceCh).reverse.dropWhile isSpaceCh).reverse

/-- `contract_type_expanded`: short contract codes to full phrases. -/
def contract_type_expanded (raw : Str) : Str :=
  let k := stripSpaces raw
  if k == str "td" then str "temporal"
  else if k == str "ti" then str "indefinido"
  else if k == str "fp" then str "formación profesional"
  else if k == str "p" then str "practicas"
  else raw

def SMI_MONTHLY_GROSS : ℚ := 1134
def SMI_ANNUAL_GROSS : ℚ := 15876

/-- The per-period threshold test from the `_check_salary` passing filter. -/
def salary_passes (c : ℚ × Period) : Bool :=
  match c.2 with
  | Period.annual => SMI_ANNUAL_GROSS ≤ c.1
  | Period.monthly => SMI_MONTHLY_GROSS ≤ c.1

/-- Python `max(list, key=amount)`: first maximal element. -/
def maxByAmount (c : ℚ × Period) (t : List (ℚ × Period)) : ℚ × Period :=
  t.foldl (fun best x => if best.1 < x.1 then x else best) c

/-- Round-half-even to an integer (Python `f"{x:.0f}"`). -/
def roundHalfEven (q : ℚ) : ℤ :=
  let f : ℤ := q.floor
  let frac := q - (f : ℚ)
  if frac < 1/2 then f
  else if 1/2 < frac then f + 1
  else if f % 2 = 0 then f else f + 1

/-- Python `f"{x:.0f}"` rendering. -/
def fmtF0 (q : ℚ) : Str := str (toString (roundHalfEven q))

/-- `_check_salary`: salary_raw primary, description fallback; disqualify iff
some candidate parsed and none passes its period's threshold. -/
def check_salary (salary_raw description : Str) : Option Str :=
  let text := if salary_raw ≠ [] then salary_raw else description
  if text = [] then none
  else
    let candidates := parse_salary_amounts text
    if candidates = [] then none
    else
      let passing := candidates.filter salary_passes
      if passing ≠ [] then none
      else
        match candidates with
        | [] => none
        | c :: cs =>
          let best := maxByAmount c cs
          match best.2 with
          | Period.annual =>
            some (str "salary too low for canje: €" ++ fmtF0 best.1 ++
                  str "/year (minimum: €" ++ fmtF0 SMI_ANNUAL_GROSS ++ str "/year)")
          | Period.monthly =>
            some (str "salary too low for canje: ~€" ++ fmtF0 best.1 ++
                  str "/month (minimum: €" ++ fmtF0 SMI_MONTHLY_GROSS ++ str "/month)")

/-- The four posting fields read by `is_eligible` (a Python dict; `none`
covers both a missing key and `None`). -/
structure JobData where
  title : Option Str
  description : Option Str
  contract_type : Option Str
  salary_raw : Option Str
deriving Repr, DecidableEq

/-- `is_eligible`: rules in order, first disqualification wins. -/
def is_eligible (job_data : JobData) : Bool × Option Str :=
  let title := lowerL (orEmpty job_data.title)
  let description := lowerL (orEmpty job_data.description)
  let contract_raw := lowerL (orEmpty job_data.contract_type)
  let salary_raw := lowerL (orEmpty job_data.salary_raw)
  let full_text := title ++ [' '] ++ contract_type_expanded contract_raw ++ [' '] ++ description
  match find_keyword full_text TEMPORAL_KEYWORDS with
  | some kw => (false, some (str "temporal contract detected: '" ++ kw ++ str "'"))
  | none =>
  match find_keyword full_text PARTTIME_KEYWORDS with
  | some kw => (false, some (str "part-time detected: '" ++ kw ++ str "'"))
  | none =>
  match check_hours full_text with
  | some reason => (false, some reason)
  | none =>
  match check_salary salary_raw description with
  | some reason => (false, some reason)
  | none => (true, none)

-- ===========================================================================
-- confirm_detector.py
-- ===========================================================================

/-- `_SUCCESS_PATTERNS`. -/
def SUCCESS_PATTERNS : List Str :=
  [str "gracias", str "solicitud recibida", str "application submitted",
   str "thank you", str "hemos recibido", str "confirmación", str "confirmacion",
   str "éxito", str "exito", str "your application", str "tu solicitud",
   str "candidatura recibida", str "candidatura enviada",
   str "successfully submitted", str "sent successfully", str "we have received",
   str "su candidatura", str "enhorabuena", str "felicidades",
   str "proceso de selección", str "nos pondremos en contacto",
   str "we will be in touch", str "we'll be in touch",
   str "review your application", str "application complete",
   str "solicitud completada", str "inscripción realizada",
   str "inscripcion realizada"]

/-- `_ERROR_PATTERNS`. -/
def ERROR_PATTERNS : List Str :=
  [str "error", str "inténtalo de nuevo", str "intentalo de nuevo",
   str "try again", str "failed", str "falló", str "fallo",
   str "something went wrong", str "algo salió mal", str "algo salio mal",
   str "vuelve a intentar", str "hubo un problema", str "no se pudo",
   str "could not submit", str "submission failed", str "por favor revisa",
   str "please review", str "invalid", str "inválido", str "invalido",
   str "required field", str "campo requerido", str "campo obligatorio"]

/-- The critical terms of `_has_error_pattern` (a Python set; membership only). -/
def CRITICAL_ERRORS : List Str :=
  [str "failed", str "submission failed", str "could not submit", str "fallo"]

/-- `_has_success_pattern`. -/
def has_success_pattern (text : Str) : Bool :=
  SUCCESS_PATTERNS.any (fun p => hasSub p text)

/-- `_has_error_pattern`: any critical term alone is positive; otherwise at
least two distinct error patterns are required. -/
def has_error_pattern (text : Str) : Bool :=
  let errorCount := (ERROR_PATTERNS.filter (fun p => hasSub p text)).length
  if CRITICAL_ERRORS.any (fun ce => hasSub ce text) then true
  else errorCount ≥ 2

/-- What one detection tick observes of the page (URL, lowercased body text,
whether a `form` element currently exists). -/
structure PageObs where
  currentUrl : Str
  pageText : Str
  formNow : Bool
deriving Repr, DecidableEq

/-- One iteration of the `detect_confirmation` polling loop: URL change is
checked first, then error text, then success text, then form disappearance;
`none` means the loop continues to the next tick. -/
def detect_tick (initialUrl : Str) (formPresentInitially : Bool)
    (obs : PageObs) : Option (Bool × Str) :=
  if obs.currentUrl ≠ initialUrl then
    if has_error_pattern obs.pageText then some (false, str "error_detected")
    else some (true, str "url_change")
  else if has_error_pattern obs.pageText then some (false, str "error_detected")
  else if has_success_pattern obs.pageText then some (true, str "success_text")
  else if formPresentInitially && !obs.formNow then some (true, str "form_gone")
  else none

-- ===========================================================================
-- validator.py : experience integrity  (C9)
-- ===========================================================================

/-- One experience entry as read by `_check_experience_integrity`. -/
structure ExpEntry where
  company : Str
  start_date : Str
  end_date : Str
deriving Repr, DecidableEq

/-- `_normalise_company`: lowercase and drop non-word characters. -/
def normalise_company (name : Str) : Str :=
  (lowerL name).filter isWordCh

/-- `re.findall(r"\b(19|20)\d{2}\b", text)` keeps only the capture group, so
each hit contributes the string "19" or "20"; `int(y)` then yields 19 or 20.
This scanner mirrors that faithfully. -/
def findYearGroups (fuel : Nat) (prev : Option Char) (l : Str) : List Int :=
  match fuel, l with
  | 0, _ => []
  | _, [] => []
  | fuel + 1, c :: tail =>
    let boundary := match prev with
                    | none => true
                    | some p => !isWordCh p
    let attempt : Option (Int × Str) :=
      if boundary then
        match c :: tail with
        | a :: b :: d :: e :: rest =>
          if ((a == '1' && b == '9') || (a == '2' && b == '0')) &&
             d.isDigit && e.isDigit && atBoundary rest then
            some (if a == '1' then 19 else 20, rest)
          else none
        | _ => none
      else none
    match attempt with
    | some (y, rem) => y :: findYearGroups fuel (lastCharBefore (c :: tail) rem) rem
    | none => findYearGroups fuel (some c) tail

/-- `_extract_years` on `f"{start_date} {end_date}"`. -/
def extract_years (e : ExpEntry) : List Int :=
  let text := e.start_date ++ [' '] ++ e.end_date
  findYearGroups text.length none text

/-- Set of normalised companies with a truthy company field (Python set
modelled as a dedup-preserving list; only membership and difference are
used). -/
def companiesOf (exp : List ExpEntry) : List Str :=
  (exp.filterMap (fun e => if e.company ≠ [] then some (normalise_company e.company) else none)).dedup

/-- Last-wins dict `{normalise(company): entry}` built by the comprehension. -/
def origByCompany (exp : List ExpEntry) : List (Str × ExpEntry) :=
  exp.foldl (fun m e =>
    let k := normalise_company e.company
    if (m.find? (fun kv => kv.1 == k)).isSome then
      m.map (fun kv => if kv.1 == k then (k, e) else kv)
    else m ++ [(k, e)]) []

/-- `min`/`max` for the nonempty case. -/
def listMin (h : Int) (t : List Int) : Int := t.foldl min h
def listMax (h : Int) (t : List Int) : Int := t.foldl max h

/-- Render a year list for the error message ( `f"{years}"` ). -/
def yearsToStr (ys : List Int) : Str := str (toString ys)

/-- `_check_experience_integrity`: removed companies, extra entries, and the
date-drift comparison of extracted years for matching companies. -/
def check_experience_integrity (origExp adapExp : List ExpEntry) : List Str :=
  let origCompanies := companiesOf origExp
  let adapCompanies := companiesOf adapExp
  let removed := origCompanies.filter (fun c => !adapCompanies.contains c)
  let errs1 : List Str :=
    if removed ≠ [] then
      [str "Experience integrity: companies removed from adapted CV: " ++
        (removed.flatMap (fun c => c ++ [' ']))]
    else []
  let errs2 : List Str :=
    if adapExp.length > origExp.length then
      [str "Experience integrity: adapted CV has " ++ str (toString adapExp.length) ++
       str " entries but original has only " ++ str (toString origExp.length) ++
       str " — possible fabricated jobs"]
    else []
  let byCompany := origByCompany origExp
  let errs3 : List Str := adapExp.filterMap (fun adapEntry =>
    let key := normalise_company adapEntry.company
    match (byCompany.find? (fun kv => kv.1 == key)).map (·.2) with
    | none => none
    | some origEntry =>
      match extract_years origEntry, extract_years adapEntry with
      | oy :: oys, ay :: ays =>
        let origMin := listMin oy oys
        let origMax := listMax oy oys
        let adapMin := listMin ay ays
        let adapMax := listMax ay ays
        if 1 < (origMin - adapMin).natAbs || 1 < (origMax - adapMax).natAbs then
          some (str "Date drift at '" ++ key ++ str "': original years " ++
                yearsToStr (oy :: oys) ++ str " vs adapted years " ++ yearsToStr (ay :: ays))
        else none
      | _, _ => none)
  errs1 ++ errs2 ++ errs3

-- ===========================================================================
-- database/crud.py : applications, the transition gate, the event log
-- ===========================================================================

/-- An `applications` row (the columns the claims touch; the open-ended
`**extra_fields` of the gate is modelled by an update function, matching the
`setattr` loop). -/
structure Application where
  id : Nat
  status : Str
  updatedAt : Nat
  authorizedByHuman : Bool
  authorizedAt : Option Nat
deriving Repr, DecidableEq

/-- An `application_events` row (append-only audit log). -/
structure EventRec where
  applicationId : Nat
  oldStatus : Option Str
  newStatus : Str
  triggeredBy : Str
  note : Option Str
deriving Repr, DecidableEq

/-- `_log_event`: append one event row. -/
def log_event (events : List EventRec) (applicationId : Nat) (oldStatus : Option Str)
    (newStatus : Str) (triggeredBy : Str) (note : Option Str) : List EventRec :=
  events ++ [⟨applicationId, oldStatus, newStatus, triggeredBy, note⟩]

/-- `transition_application`: the single status-change gate.  Writes the new
status and `updated_at`, applies the extra field updates (the `setattr`
loop, run after the status write), and appends one event with the pre/post
status and actor tag — all in one state transform (one transaction). -/
def transition_application (events : List EventRec) (app : Application)
    (newStatus : Str) (triggeredBy : Str) (note : Option Str)
    (extraFields : Application → Application) (now : Nat) :
    List EventRec × Application :=
  let oldStatus := app.status
  let app := extraFields { app with status := newStatus, updatedAt := now }
  let events := log_event events app.id (some oldStatus) newStatus triggeredBy note
  (events, app)

/-- `create_application`: new row in status `scraped` plus the initial event
with `old_status = None`, `triggered_by = "system"`. -/
def create_application (events : List EventRec) (newId : Nat) (now : Nat) :
    List EventRec × Application :=
  let app : Application :=
    { id := newId, status := str "scraped", updatedAt := now,
      authorizedByHuman := false, authorizedAt := none }
  let events := log_event events app.id none app.status (str "system") none
  (events, app)

-- ===========================================================================
-- human_loop.py / main.py : review-window expiry and the authorize endpoint
-- ===========================================================================

/-- `_is_session_expired`: the review window has elapsed
(`now > updated_at + timeout_minutes`).  Times in seconds. -/
def is_session_expired (updatedAt : Option Nat) (timeoutMinutes : Nat) (now : Nat) : Bool :=
  match updatedAt with
  | none => false
  | some u => decide (now > u + timeoutMinutes * 60)

/-- `POST /api/applications/{id}/authorize` (`authorize_application` in
main.py): 404 when missing, 400 unless the status is
`pending_human_review`, otherwise an immediate transition to `cv_approved`
with `authorized_by_human`/`authorized_at` — the elapsed review time is
never consulted on this path. -/
def authorize_application (events : List EventRec) (appOpt : Option Application)
    (now : Nat) : List EventRec × Option Application × Str :=
  match appOpt with
  | none => (events, none, str "not_found")
  | some app =>
    if app.status ≠ str "pending_human_review" then
      (events, some app, str "bad_status")
    else
      let (events, app) := transition_application events app (str "cv_approved")
        (str "human") (some (str "Human authorized submission"))
        (fun a => { a with authorizedByHuman := true, authorizedAt := some now }) now
      (events, some app, str "authorized")

-- ===========================================================================
-- database/crud.py + scrapers/base.py : scraper runs  (C3, C4)
-- ===========================================================================

/-- A `scraper_runs` row (`id` doubles as start order). -/
structure ScraperRunRec where
  id : Nat
  site : Str
  status : Str
  jobsFound : Nat
  jobsNew : Nat
  consecutiveZeroRuns : Nat
deriving Repr, DecidableEq

/-- `start_scraper_run`: append a fresh `running` row (column default
`consecutive_zero_runs = 0`). -/
def start_scraper_run (runs : List ScraperRunRec) (site : Str) :
    List ScraperRunRec × ScraperRunRec :=
  let run : ScraperRunRec :=
    { id := runs.length, site := site, status := str "running",
      jobsFound := 0, jobsNew := 0, consecutiveZeroRuns := 0 }
  (runs ++ [run], run)

/-- `finish_scraper_run`: write status and counters; the zero-run counter is
incremented from the row's own current value (the freshly created run). -/
def finish_scraper_run (run : ScraperRunRec) (status : Str)
    (jobsFound jobsNew : Nat) : ScraperRunRec :=
  let run := { run with status := status, jobsFound := jobsFound, jobsNew := jobsNew }
  if jobsFound == 0 && status == str "completed" then
    { run with consecutiveZeroRuns := run.consecutiveZeroRuns + 1 }
  else
    { run with consecutiveZeroRuns := 0 }

/-- `get_latest_scraper_run`: most recently started run of the site. -/
def get_latest_scraper_run (runs : List ScraperRunRec) (site : Str) :
    Option ScraperRunRec :=
  (runs.filter (fun r => r.site == site)).getLast?

/-- Replace the row with the given id (the flush of the finished run). -/
def storeRun (runs : List ScraperRunRec) (updated : ScraperRunRec) :
    List ScraperRunRec :=
  runs.map (fun r => if r.id == updated.id then updated else r)

/-- `BaseScraper.run` at the run-lifecycle level.  `scrapeResult` is the
adapter outcome: `some (jobsFound, jobsNew)` for a completed scrape, `none`
for an exception (finalised as `failed`).  Returns the new run table and the
stats status. -/
def scraper_run (runs : List ScraperRunRec) (site : Str)
    (scrapeResult : Option (Nat × Nat)) : List ScraperRunRec × Str :=
  let proceed : List ScraperRunRec × Str :=
    let (runs1, run) := start_scraper_run runs site
    match scrapeResult with
    | none =>
      (storeRun runs1 (finish_scraper_run run (str "failed") 0 0), str "failed")
    | some (jobsFound, jobsNew) =>
      (storeRun runs1 (finish_scraper_run run (str "completed") jobsFound jobsNew),
       str "completed")
  match get_latest_scraper_run runs site with
  | some latest =>
    if latest.consecutiveZeroRuns ≥ 5 then (runs, str "disabled") else proceed
  | none => proceed

/-- Iterate `scraper_run` over a sequence of adapter outcomes. -/
def scraper_run_seq (runs : List ScraperRunRec) (site : Str)
    (outcomes : List (Option (Nat × Nat))) : List ScraperRunRec :=
  outcomes.foldl (fun acc oc => (scraper_run acc site oc).1) runs

-- ===========================================================================
-- database/crud.py upsert_job + scrapers/base.py posting loop  (C7)
-- ===========================================================================

/-- A `jobs` row (the columns the claims touch; `raw_data` as an assoc map). -/
structure JobRow where
  site : Str
  externalId : Str
  status : Str
  rawData : List (Str × Str)
  data : JobData
deriving Repr, DecidableEq

/-- One raw posting dict produced by an adapter. -/
structure Posting where
  site : Str
  externalId : Str
  rawData : List (Str × Str)
  data : JobData
deriving Repr, DecidableEq

/-- The `(site, external_id)` identity predicate of the dedup upsert. -/
def keyMatches (site externalId : Str) (j : JobRow) : Bool :=
  j.site == site && j.externalId == externalId

/-- `upsert_job`: insert-or-ignore on `(site, external_id)`; the existing row
wins and none of its fields are touched. -/
def upsert_job (table : List JobRow) (site externalId : Str) (status : Str)
    (rawData : List (Str × Str)) (data : JobData) :
    List JobRow × JobRow × Bool :=
  match table.find? (keyMatches site externalId) with
  | some existing => (table, existing, false)
  | none =>
    let job : JobRow := ⟨site, externalId, status, rawData, data⟩
    (table ++ [job], job, true)

/-- The per-posting body of `BaseScraper.run` (lines 81-97): eligibility
filter, `skipped` status plus `_skip_reason` annotation of the incoming dict
when ineligible, dedup upsert, and the eligible-only `jobs_new` counting. -/
def process_posting (table : List JobRow) (p : Posting) : List JobRow × Nat :=
  let er := is_eligible p.data
  let eligible := er.1
  let status := if eligible then str "scraped" else str "skipped"
  let rawData := if eligible then p.rawData
                 else assocSet p.rawData (str "_skip_reason") (orEmpty er.2)
  let res := upsert_job table p.site p.externalId status rawData p.data
  (res.1, if res.2.2 && eligible then 1 else 0)

/-- The posting loop of one run: iterate `process_posting`, accumulating the
eligible-only `jobs_new` count. -/
def run_postings (table : List JobRow) : List Posting → List JobRow × Nat
  | [] => (table, 0)
  | p :: ps =>
    let (table1, n) := process_posting table p
    let (table2, m) := run_postings table1 ps
    (table2, n + m)

-- ===========================================================================
-- Spec-side definitions (for refinement comparisons only)
-- ===========================================================================

/-- Modelled from the spec (§4.3 state diagram): the legal transition
relation of the application state machine.  Terminal statuses are those with
no outgoing arrow in the diagram. -/
def spec_legal_transition (oldStatus newStatus : Str) : Bool :=
  let basePairs : List (Str × Str) :=
    [(str "scraped", str "qualified"), (str "qualified", str "cv_generating"),
     (str "cv_generating", str "cv_ready"), (str "cv_ready", str "cv_approved"),
     (str "cv_approved", str "application_started"),
     (str "application_started", str "form_filled"),
     (str "form_filled", str "pending_human_review"),
     (str "pending_human_review", str "submitted_ambiguous"),
     (str "pending_human_review", str "applied"),
     (str "applied", str "acknowledged"),
     (str "acknowledged", str "interview_scheduled"),
     (str "interview_scheduled", str "interviewed"),
     (str "interviewed", str "offered"), (str "interviewed", str "rejected"),
     (str "cv_generating", str "cv_failed_validation")]
  let terminal : List Str :=
    [str "submitted_ambiguous", str "offered", str "rejected", str "withdrawn",
     str "expired", str "cv_failed_validation"]
  basePairs.contains (oldStatus, newStatus) ||
    (!terminal.contains oldStatus &&
      (newStatus == str "rejected" || newStatus == str "withdrawn" ||
       newStatus == str "expired"))

/-- Modelled from the spec (§3 SourceRun invariant): the length of the
longest suffix of `completed` runs with `jobs_found = 0` of a site's run
history, newest last. -/
def zero_suffix_len (runs : List ScraperRunRec) : Nat :=
  ((runs.reverse).takeWhile
    (fun r => r.status == str "completed" && r.jobsFound == 0)).length

/-- Modelled from the spec (§4.4.a): the 4-digit years extracted from
`start_date` + `end_date` — the full year values, as the spec's words
require (contrast `extract_years`, which embeds the code). -/
def spec_extract_years_groups (fuel : Nat) (prev : Option Char) (l : Str) : List Int :=
  match fuel, l with
  | 0, _ => []
  | _, [] => []
  | fuel + 1, c :: tail =>
    let boundary := match prev with
                    | none => true
                    | some p => !isWordCh p
    let attempt : Option (Int × Str) :=
      if boundary then
        match c :: tail with
        | a :: b :: d :: e :: rest =>
          if ((a == '1' && b == '9') || (a == '2' && b == '0')) &&
             d.isDigit && e.isDigit && atBoundary rest then
            some ((natOfDigits [a, b, d, e] : Int), rest)
          else none
        | _ => none
      else none
    match attempt with
    | some (y, rem) => y :: spec_extract_years_groups fuel (lastCharBefore (c :: tail) rem) rem
    | none => spec_extract_years_groups fuel (some c) tail

/-- Modelled from the spec: 4-digit year values of an experience entry. -/
def spec_extract_years (e : ExpEntry) : List Int :=
  let text := e.start_date ++ [' '] ++ e.end_date
  spec_extract_years_groups text.length none text

/-- A row with the given `(site, external_id)` key is present in the table. -/
def HasKey (table : List JobRow) (site externalId : Str) : Prop :=
  ∃ j ∈ table, keyMatches site externalId j = true

-- ===========================================================================
-- Helper lemmas
-- ===========================================================================

theorem parse_salary_amounts_nil : parse_salary_amounts [] = [] := rfl

theorem hasKey_iff_isSome (table : List JobRow) (site extId : Str) :
    HasKey table site extId ↔ (table.find? (keyMatches site extId)).isSome :=
  (List.find?_isSome).symm

theorem process_posting_of_hasKey (table : List JobRow) (p : Posting)
    (h : HasKey table p.site p.externalId) :
    process_posting table p = (table, 0) := by
  obtain ⟨existing, hfind⟩ :=
    Option.isSome_iff_exists.mp ((hasKey_iff_isSome table p.site p.externalId).mp h)
  simp [process_posting, upsert_job, hfind]

theorem hasKey_process_mono (table : List JobRow) (p : Posting) (site extId : Str)
    (h : HasKey table site extId) :
    HasKey (process_posting table p).1 site extId := by
  simp only [process_posting, upsert_job]
  cases hf : table.find? (keyMatches p.site p.externalId) with
  | some ex => simpa using h
  | none =>
    obtain ⟨j, hj, hk⟩ := h
    exact ⟨j, by simp [List.mem_append, hj], hk⟩

theorem hasKey_process_self (table : List JobRow) (p : Posting) :
    HasKey (process_posting table p).1 p.site p.externalId := by
  simp only [process_posting, upsert_job]
  cases hf : table.find? (keyMatches p.site p.externalId) with
  | some ex =>
    exact ⟨ex, by simp [List.mem_of_find?_eq_some hf], List.find?_some hf⟩
  | none =>
    refine ⟨_, List.mem_append_right _ (List.mem_singleton_self _), ?_⟩
    simp [keyMatches]

theorem run_postings_hasKey_mono :
    ∀ (ps : List Posting) (table : List JobRow) (site extId : Str),
      HasKey table site extId → HasKey (run_postings table ps).1 site extId := by
  intro ps
  induction ps with
  | nil => intro table site extId h; exact h
  | cons p ps ih =>
    intro table site extId h
    exact ih _ _ _ (hasKey_process_mono table p site extId h)

theorem run_postings_hasKey_all :
    ∀ (ps : List Posting) (table : List JobRow) (p : Posting), p ∈ ps →
      HasKey (run_postings table ps).1 p.site p.externalId := by
  intro ps
  induction ps with
  | nil => intro table p h; cases h
  | cons q ps ih =>
    intro table p h
    rcases List.mem_cons.mp h with rfl | h
    · exact run_postings_hasKey_mono ps _ _ _ (hasKey_process_self table p)
    · exact ih _ p h

theorem run_postings_fixed :
    ∀ (ps : List Posting) (table : List JobRow),
      (∀ p ∈ ps, HasKey table p.site p.externalId) →
      run_postings table ps = (table, 0) := by
  intro ps
  induction ps with
  | nil => intro table _; rfl
  | cons p ps ih =>
    intro table h
    have h1 : process_posting table p = (table, 0) :=
      process_posting_of_hasKey table p (h p (List.mem_cons_self p ps))
    have h2 : run_postings table ps = (table, 0) :=
      ih table (fun q hq => h q (List.mem_cons_of_mem p hq))
    simp [run_postings, h1, h2]

-- ===========================================================================
-- Claim theorems
-- ===========================================================================

/-- Claim C1: every committed status change — creation included, which records
an initial event with `old_status = None` — appends exactly one Event row in
the same state transform, carrying the pre-status, the post-status and the
actor tag, while the gate writes the new status, the updated-at timestamp and
the extra field updates atomically. -/
theorem C1_transition_gate_one_event :
    (∀ (events : List EventRec) (app : Application) (newStatus triggeredBy : Str)
       (note : Option Str) (extraFields : Application → Application) (now : Nat),
      (transition_application events app newStatus triggeredBy note extraFields now).1
        = events ++ [⟨(transition_application events app newStatus triggeredBy note
            extraFields now).2.id, some app.status, newStatus, triggeredBy, note⟩] ∧
      (transition_application events app newStatus triggeredBy note extraFields now).2
        = extraFields { app with status := newStatus, updatedAt := now }) ∧
    (∀ (events : List EventRec) (newId now : Nat),
      (create_application events newId now).1
        = events ++ [⟨newId, none, str "scraped", str "system", none⟩] ∧
      (create_application events newId now).2
        = { id := newId, status := str "scraped", updatedAt := now,
            authorizedByHuman := false, authorizedAt := none }) :=
  ⟨fun _ _ _ _ _ _ _ => ⟨rfl, rfl⟩, fun _ _ _ => ⟨rfl, rfl⟩⟩

/-- Claim C2: the code evaluated at the failing input.  An authorization
request 31 minutes after the `pending_human_review` transition (timeout 30)
finds the review window expired by `_is_session_expired`, yet the authorize
endpoint — which never consults the elapsed time — returns "authorized",
transitions the application to `cv_approved` and appends an Event, where the
claim requires an `expired` response with no transition and no Event. -/
theorem C2_authorize_ignores_review_window :
    is_session_expired (some 0) 30 (31 * 60) = true ∧
    (authorize_application [] (some ⟨7, str "pending_human_review", 0, false, none⟩)
        (31 * 60)).2.2 = str "authorized" ∧
    ((authorize_application [] (some ⟨7, str "pending_human_review", 0, false, none⟩)
        (31 * 60)).2.1.map (·.status)) = some (str "cv_approved") ∧
    (authorize_application [] (some ⟨7, str "pending_human_review", 0, false, none⟩)
        (31 * 60)).1
      = [⟨7, some (str "pending_human_review"), str "cv_approved", str "human",
          some (str "Human authorized submission")⟩] := by
  exact ⟨by decide, by decide, by decide, by decide⟩

/-- Claim C3: the code evaluated at the failing input.  After two consecutive
completed runs with `jobs_found = 0`, the stored `consecutive_zero_runs` is 1
while the longest zero suffix has length 2: `finish_scraper_run` increments
the freshly created row's own counter (initialised to 0) instead of carrying
the previous run's value, so the stored counter never equals the suffix
length beyond one run. -/
theorem C3_zero_counter_not_suffix_length :
    ((get_latest_scraper_run (scraper_run_seq [] (str "infojobs")
        [some (0, 0), some (0, 0)]) (str "infojobs")).map (·.consecutiveZeroRuns)
      = some 1) ∧
    zero_suffix_len ((scraper_run_seq [] (str "infojobs")
        [some (0, 0), some (0, 0)]).filter (fun r => r.site == str "infojobs")) = 2 := by
  exact ⟨by decide, by decide⟩

/-- Claim C4: the code evaluated at the failing input.  After five consecutive
completed zero runs the latest stored counter is 1, so the sixth invocation
does not short-circuit: it completes and creates a sixth SourceRun row.  The
short-circuit branch itself exists, firing only from a stored counter ≥ 5
(which the pipeline never produces). -/
theorem C4_sixth_zero_run_not_disabled :
    ((get_latest_scraper_run (scraper_run_seq [] (str "infojobs")
        (List.replicate 5 (some (0, 0)))) (str "infojobs")).map (·.consecutiveZeroRuns)
      = some 1) ∧
    (scraper_run (scraper_run_seq [] (str "infojobs") (List.replicate 5 (some (0, 0))))
        (str "infojobs") (some (0, 0))).2 = str "completed" ∧
    (scraper_run (scraper_run_seq [] (str "infojobs") (List.replicate 5 (some (0, 0))))
        (str "infojobs") (some (0, 0))).1.length = 6 ∧
    (scraper_run [⟨0, str "infojobs", str "completed", 0, 0, 5⟩] (str "infojobs")
        (some (3, 1))).2 = str "disabled" ∧
    (scraper_run [⟨0, str "infojobs", str "completed", 0, 0, 5⟩] (str "infojobs")
        (some (3, 1))).1.length = 1 := by
  exact ⟨by decide, by decide, by decide, by decide, by decide⟩

/-- Claim C9: the code evaluated at the failing input.  `_extract_years` keeps
only the regex capture group ("19"/"20"), not the full 4-digit year, so the
original years {2015, 2019} versus adapted years {2010, 2019} both extract as
[20, 20] and the integrity check reports no error, where the claim requires a
hard error for a minimum-year gap of 5; the spec-side extractor shows the
intended values. -/
theorem C9_year_extraction_drift_vacuous :
    extract_years ⟨str "Acme", str "2015", str "2019"⟩ = [20, 20] ∧
    extract_years ⟨str "Acme", str "2010", str "2019"⟩ = [20, 20] ∧
    check_experience_integrity [⟨str "Acme", str "2015", str "2019"⟩]
      [⟨str "Acme", str "2010", str "2019"⟩] = [] ∧
    spec_extract_years ⟨str "Acme", str "2015", str "2019"⟩ = [2015, 2019] ∧
    spec_extract_years ⟨str "Acme", str "2010", str "2019"⟩ = [2010, 2019] ∧
    1 < (listMin 2015 [2019] - listMin 2010 [2019]).natAbs := by
  exact ⟨by decide, by decide, by decide, by decide, by decide, by decide⟩

/-- Claim C8 (counterexample): at the concrete pair applied → scraped, which
is outside the spec's legal transition relation, the gate applies the status
write and appends an Event instead of refusing. -/
theorem C8_counterexample_illegal_transition_applied :
    spec_legal_transition (str "applied") (str "scraped") = false ∧
    (transition_application [] ⟨3, str "applied", 10, false, none⟩ (str "scraped")
        (str "test") none id 11).2.status = str "scraped" ∧
    (transition_application [] ⟨3, str "applied", 10, false, none⟩ (str "scraped")
        (str "test") none id 11).1.length = 1 := by
  exact ⟨by decide, by decide, by decide⟩

/-- Claim C8 (amended): the gate performs no legality check — even when the
(old_status, new_status) pair is outside the spec's transition relation, the
status is written and the Event appended; no transition is refused. -/
theorem C8_gate_never_refuses :
    ∀ (events : List EventRec) (app : Application) (newStatus triggeredBy : Str)
      (note : Option Str) (extraFields : Application → Application) (now : Nat),
      spec_legal_transition app.status newStatus = false →
      (transition_application events app newStatus triggeredBy note extraFields now).2
        = extraFields { app with status := newStatus, updatedAt := now } ∧
      (transition_application events app newStatus triggeredBy note extraFields now).1.length
        = events.length + 1 := by
  intro events app ns tb note ef now _
  exact ⟨rfl, by simp [transition_application, log_event]⟩

/-- Witness for C8: the amended theorem applied at the illegal pair
offered → applied. -/
theorem C8_gate_never_refuses_witness :
    spec_legal_transition (str "offered") (str "applied") = false ∧
    ((transition_application [] ⟨1, str "offered", 0, false, none⟩ (str "applied")
        (str "t") none id 5).2
      = id { (⟨1, str "offered", 0, false, none⟩ : Application) with
             status := str "applied", updatedAt := 5 } ∧
     (transition_application [] ⟨1, str "offered", 0, false, none⟩ (str "applied")
        (str "t") none id 5).1.length = List.length ([] : List EventRec) + 1) :=
  ⟨by decide, C8_gate_never_refuses [] ⟨1, str "offered", 0, false, none⟩ (str "applied")
      (str "t") none id 5 (by decide)⟩

/-- Claim C10: `is_eligible` is total at the public interface — a posting
whose title, description, contract_type and salary_raw are each missing/None
or the empty string yields `(true, none)`. -/
theorem C10_empty_posting_eligible :
    ∀ t d c s : Option Str,
      (t = none ∨ t = some []) → (d = none ∨ d = some []) →
      (c = none ∨ c = some []) → (s = none ∨ s = some []) →
      is_eligible ⟨t, d, c, s⟩ = (true, none) := by
  intro t d c s ht hd hc hs
  rcases ht with rfl | rfl <;> rcases hd with rfl | rfl <;>
    rcases hc with rfl | rfl <;> rcases hs with rfl | rfl <;> decide

/-- Witness for C10: the theorem applied at the all-missing posting. -/
theorem C10_empty_posting_witness :
    is_eligible ⟨none, none, none, none⟩ = (true, none) :=
  C10_empty_posting_eligible none none none none (Or.inl rfl) (Or.inl rfl)
    (Or.inl rfl) (Or.inl rfl)

/-- Claim C6: within a tick the URL change is checked first, so a page whose
URL changed and whose text contains "gracias" plus a single non-critical
"error" hit confirms with signal url_change; and the error heuristic is
positive exactly when a critical term appears or at least two distinct error
patterns appear. -/
theorem C6_url_change_precedence_and_error_heuristic :
    (∀ (initialUrl : Str) (formPresentInitially : Bool) (obs : PageObs),
      obs.currentUrl ≠ initialUrl → has_error_pattern obs.pageText = false →
      detect_tick initialUrl formPresentInitially obs = some (true, str "url_change")) ∧
    (∀ text : Str,
      has_error_pattern text = true ↔
        ((∃ ce ∈ CRITICAL_ERRORS, hasSub ce text = true) ∨
         2 ≤ (ERROR_PATTERNS.filter (fun p => hasSub p text)).length)) ∧
    (hasSub (str "gracias") (str "gracias por enviar - error 0") = true ∧
     hasSub (str "error") (str "gracias por enviar - error 0") = true ∧
     (ERROR_PATTERNS.filter
        (fun p => hasSub p (str "gracias por enviar - error 0"))).length = 1 ∧
     CRITICAL_ERRORS.all
        (fun ce => !hasSub ce (str "gracias por enviar - error 0")) = true ∧
     detect_tick (str "http://a/form") true
        ⟨str "http://a/done", str "gracias por enviar - error 0", true⟩
       = some (true, str "url_change")) := by
  refine ⟨?_, ?_, by decide, by decide, by decide, by decide, by decide⟩
  · intro initialUrl fpi obs hUrl hErr
    simp [detect_tick, hUrl, hErr]
  · intro text
    simp only [has_error_pattern]
    by_cases hc : CRITICAL_ERRORS.any (fun ce => hasSub ce text) = true
    · rw [if_pos hc]
      simp only [List.any_eq_true] at hc
      exact ⟨fun _ => Or.inl hc, fun _ => rfl⟩
    · rw [if_neg hc]
      simp only [List.any_eq_true] at hc
      constructor
      · intro h
        exact Or.inr (by simpa using h)
      · intro h
        rcases h with h | h
        · exact absurd h hc
        · simpa using h

/-- Witness for C6: the precedence part applied at a concrete changed-URL
page with error-free text. -/
theorem C6_url_change_witness :
    detect_tick (str "http://x/1") false ⟨str "http://x/2", str "hola", true⟩
      = some (true, str "url_change") :=
  C6_url_change_precedence_and_error_heuristic.1 (str "http://x/1") false
    ⟨str "http://x/2", str "hola", true⟩ (by decide) (by decide)

/-- Claim C7 (counterexample): when the same `(site, external_id)` posting
later arrives with flipped eligibility, the stored row is not updated — its
status stays `scraped` and no `_skip_reason` appears in its stored raw_data
(only the incoming dict was annotated), falsifying the claimed exception. -/
theorem C7_counterexample_skip_reason_not_updated :
    (is_eligible (⟨some (str "Frontend Developer"), none, none, none⟩ : JobData)).1
      = true ∧
    (is_eligible (⟨some (str "Frontend Developer"), none, none,
        some (str "900€/mes")⟩ : JobData)).1 = false ∧
    (process_posting
        (process_posting [] ⟨str "infojobs", str "x1", [],
          ⟨some (str "Frontend Developer"), none, none, none⟩⟩).1
        ⟨str "infojobs", str "x1", [],
          ⟨some (str "Frontend Developer"), none, none, some (str "900€/mes")⟩⟩).1
      = (process_posting [] ⟨str "infojobs", str "x1", [],
          ⟨some (str "Frontend Developer"), none, none, none⟩⟩).1 ∧
    ((process_posting [] ⟨str "infojobs", str "x1", [],
        ⟨some (str "Frontend Developer"), none, none, none⟩⟩).1.map
      (fun r => (assocGet r.rawData (str "_skip_reason"), r.status)))
      = [(none, str "scraped")] := by
  exact ⟨by decide, by decide, by decide, by decide⟩

/-- Claim C7 (amended): upsert is insert-or-ignore on `(site, external_id)`:
an existing row is returned with `is_new = false` and every stored field —
`raw_data._skip_reason` included, with no exception — left unchanged, so
re-running the same adapter output is a fixpoint of the posting loop with
`jobs_new = 0`. -/
theorem C7_upsert_ignore_and_idempotence :
    (∀ (table : List JobRow) (site extId status : Str) (rawData : List (Str × Str))
       (data : JobData) (existing : JobRow),
      table.find? (keyMatches site extId) = some existing →
      upsert_job table site extId status rawData data = (table, existing, false)) ∧
    (∀ (table : List JobRow) (ps : List Posting),
      run_postings (run_postings table ps).1 ps = ((run_postings table ps).1, 0)) := by
  constructor
  · intro table site extId status rawData data existing h
    unfold upsert_job
    rw [h]
  · intro table ps
    exact run_postings_fixed ps _ (fun p hp => run_postings_hasKey_all ps table p hp)

/-- Witness for C7: the insert-or-ignore part applied at a one-row table whose
key matches the incoming posting. -/
theorem C7_upsert_ignore_witness :
    upsert_job [⟨str "infojobs", str "x1", str "scraped", [],
        ⟨none, none, none, none⟩⟩] (str "infojobs") (str "x1") (str "skipped")
        [(str "_skip_reason", str "below smi")] ⟨none, none, none, none⟩
      = ([⟨str "infojobs", str "x1", str "scraped", [], ⟨none, none, none, none⟩⟩],
         ⟨str "infojobs", str "x1", str "scraped", [], ⟨none, none, none, none⟩⟩,
         false) :=
  C7_upsert_ignore_and_idempotence.1 _ _ _ _ _ _ _ (by decide)

/-- Claim C5: the salary rule (`_check_salary`, invoked by `is_eligible` after
the contract and hours rules) disqualifies iff at least one candidate parses
— taken from salary_raw when non-empty, else from the description — and no
parsed candidate meets its own period's threshold; with no parsed candidate
the posting passes.  The SMI-monthly example posting is ineligible with a
reason containing "salary too low". -/
theorem C5_salary_rule_iff_and_example :
    (∀ salaryRaw description : Str,
      (check_salary salaryRaw description).isSome = true ↔
        (parse_salary_amounts (if salaryRaw ≠ [] then salaryRaw else description) ≠ [] ∧
         ∀ c ∈ parse_salary_amounts (if salaryRaw ≠ [] then salaryRaw else description),
           salary_passes c = false)) ∧
    ((is_eligible ⟨some (str "Cajero"), some (str "Jornada completa"),
        some (str "indefinido"), some (str "900€/mes")⟩).1 = false ∧
     hasSub (str "salary too low")
       (orEmpty (is_eligible ⟨some (str "Cajero"), some (str "Jornada completa"),
         some (str "indefinido"), some (str "900€/mes")⟩).2) = true) := by
  refine ⟨?_, by decide, by decide⟩
  intro sr d
  simp only [check_salary]
  set T := if sr ≠ [] then sr else d with hT
  by_cases h0 : T = []
  · rw [if_pos h0]
    simp [h0, parse_salary_amounts_nil]
  · rw [if_neg h0]
    by_cases h1 : parse_salary_amounts T = []
    · rw [if_pos h1]
      simp [h1]
    · rw [if_neg h1]
      by_cases h2 : (parse_salary_amounts T).filter salary_passes ≠ []
      · rw [if_pos h2]
        rw [Ne, List.filter_eq_nil_iff] at h2
        push_neg at h2
        obtain ⟨c, hc, hp⟩ := h2
        simp only [Option.isSome_none, Bool.false_eq_true, false_iff, not_and]
        intro _ hall
        have := hall c hc
        rw [this] at hp
        exact absurd hp (by simp)
      · rw [if_neg h2]
        have h2' : ∀ c ∈ parse_salary_amounts T, salary_passes c = false := by
          have h3 := not_not.mp h2
          rw [List.filter_eq_nil_iff] at h3
          intro c hc
          simpa using h3 c hc
        obtain ⟨c, cs, hcc⟩ := List.exists_cons_of_ne_nil h1
        rw [hcc] at h2' ⊢
        cases hb : (maxByAmount c cs).2 <;>
          simp only [hb, Option.isSome_some] <;>
          exact ⟨fun _ => ⟨List.cons_ne_nil c cs, h2'⟩, fun _ => trivial⟩
